import Mathlib

/-!
# LocalLLMClientLlamaC: the chat-template bridge and the pointer adapters

A shallow embedding of `Sources/LocalLLMClientLlamaC/utils.cpp`.

* Raw addresses are natural numbers, `0` being the null pointer.
* The request objects allocated by the bridge live in an explicit heap
  (`Heap`), a map from addresses to the object stored there.
* A `const char*` argument is `none` (null) or `some buf`, where `buf` is the
  memory readable from the pointer onwards.
* The wrapped engine (`common_chat_templates_init`,
  `common_chat_templates_apply`, the value-initialised `common_chat_params`)
  is a parameter (`Engine`); the calls a bridge function makes into it are
  recorded in a trace.
* Undefined behaviour (dereferencing a dangling request pointer, reading a
  character buffer that has no terminator) is the result `none`.
* The engine routines are total functions of their arguments: an exception
  thrown by the engine is outside the model.
* Memory is unbounded: allocation failure ends the process and is outside
  the model.
-/

namespace LocalLLMClientLlamaC

/-! ## Data model -/

/-- A raw address; `0` is the null pointer. -/
abbrev Ptr := Nat

/-- The contents of a `std::string`. -/
abbrev std_string := List Char

/-- The terminator of a C string. -/
def NUL : Char := Char.ofNat 0

/-- A `const char*` argument: `none` is the null pointer, `some buf` points at
the characters `buf` (the memory readable from the pointer onwards). -/
abbrev c_str := Option (List Char)

/-- The string a null-terminated buffer denotes: the characters before the
first terminator. -/
def c_str_value (buf : List Char) : std_string :=
  buf.takeWhile (fun c => c != NUL)

/-- The constructor `std::string(const char*)`: copies the characters up to the
first terminator; reading a buffer without terminator is undefined. -/
def std_string_ctor (buf : List Char) : Option std_string :=
  if NUL ∈ buf then some (c_str_value buf) else none

/-- Modelled from the spec: the engine's message type `common_chat_msg`
(declared in `common/chat.h`, not part of the sources), reduced to the two
fields the bridge writes, "Message: {role: string, content: string}". -/
structure common_chat_msg where
  role : std_string
  content : std_string
deriving DecidableEq

/-- Modelled from the spec: the engine's request type
`common_chat_templates_inputs` (declared in `common/chat.h`, not part of the
sources): "an ordered sequence of Messages plus two flags
(add_generation_prompt, use_jinja)". -/
structure common_chat_templates_inputs where
  messages : List common_chat_msg
  add_generation_prompt : Bool
  use_jinja : Bool
deriving DecidableEq

/-- The heap of request objects: the object stored at each address, `none`
where no request object is live. -/
abbrev Heap := Ptr → Option common_chat_templates_inputs

/-- The heap on which no request object is live. -/
def Heap.empty : Heap := fun _ => none

/-- The contract of `operator new`: the address handed out is not null and no
live object is stored there. -/
def operator_new_ok (σ : Heap) (p : Ptr) : Prop :=
  p ≠ 0 ∧ σ p = none

instance (σ : Heap) (p : Ptr) : Decidable (operator_new_ok σ p) := by
  unfold operator_new_ok; infer_instance

/-- The value-initialised request `common_chat_templates_inputs()`: no
messages; the two flags take the default member initialisers of the engine's
declaration, which is not part of the sources and so is the parameter `d`. -/
def value_initialised_inputs (d : Bool × Bool) : common_chat_templates_inputs :=
  { messages := [], add_generation_prompt := d.1, use_jinja := d.2 }

/-! ## The wrapped engine -/

/-- The engine entry points the bridge calls. `Model` is the contents of a
`llama_model`, `Tmpl` a template set (`common_chat_templates`), `Params` the
render result (`common_chat_params`). Template construction returns an owning
pointer, `none` when that pointer is null. -/
structure Engine (Model Tmpl Params : Type) where
  common_chat_templates_init : Model → std_string → std_string → std_string → Option Tmpl
  common_chat_templates_apply : Tmpl → common_chat_templates_inputs → Params
  value_initialised_params : Params

/-- A call into the engine, as recorded in the trace of a bridge call.
`templates_free` is the deleter of the owning pointer returned by
`common_chat_templates_init`. -/
inductive EngineCall (Model Tmpl : Type) where
  | templates_init (model : Model) (tmpl_override bos_override eos_override : std_string)
  | templates_apply (tmpls : Tmpl) (inputs : common_chat_templates_inputs)
  | templates_free (tmpls : Tmpl)
deriving DecidableEq

/-! ## The chat-template bridge (`utils.cpp`, lines 12 to 48) -/

/-- `create_chat_templates_inputs()`: `new common_chat_templates_inputs()`
stores a value-initialised request at the address `p` handed out by
`operator new`; both flags are then set to `true` and `p` is returned. -/
def create_chat_templates_inputs (d : Bool × Bool) (σ : Heap) (p : Ptr) : Ptr × Heap :=
  let inputs := value_initialised_inputs d
  let inputs := { inputs with add_generation_prompt := true }
  let inputs := { inputs with use_jinja := true }
  (p, Function.update σ p (some inputs))

/-- `add_message_to_inputs(inputs, role, content)`: when all three pointers are
non-null, builds a message from copies of the two strings and pushes it at the
back of the request's messages; otherwise does nothing. -/
def add_message_to_inputs (σ : Heap) (inputs : Ptr) (role content : c_str) : Option Heap :=
  if inputs ≠ 0 then
    match role, content with
    | some rbuf, some cbuf =>
      match std_string_ctor rbuf, std_string_ctor cbuf, σ inputs with
      | some r, some c, some req =>
        let msg : common_chat_msg := { role := r, content := c }
        some (Function.update σ inputs (some { req with messages := req.messages ++ [msg] }))
      | _, _, _ => none
    | _, _ => some σ
  else some σ

/-- `apply_chat_templates_safe(tmpls, inputs)`: when both pointers are non-null,
the result of the engine's `common_chat_templates_apply` on the template set
and the request; otherwise the value-initialised `common_chat_params`.
Returns the value together with the engine calls made. The request is handed
to the engine by reference to const, so the heap is not written. -/
def apply_chat_templates_safe {Model Tmpl Params : Type} (E : Engine Model Tmpl Params)
    (σ : Heap) (tmpls : Option Tmpl) (inputs : Ptr) :
    Option (Params × List (EngineCall Model Tmpl)) :=
  match tmpls with
  | some t =>
    if inputs ≠ 0 then
      match σ inputs with
      | some req => some (E.common_chat_templates_apply t req, [EngineCall.templates_apply t req])
      | none => none
    else some (E.value_initialised_params, [])
  | none => some (E.value_initialised_params, [])

/-- `apply_chat_templates_with_model(model, inputs)`: when both pointers are
non-null, constructs a template set from the model with three empty override
strings; when that succeeds, the result of `common_chat_templates_apply` on it,
after which the transient template set is freed. In every other case the
value-initialised `common_chat_params`. -/
def apply_chat_templates_with_model {Model Tmpl Params : Type} (E : Engine Model Tmpl Params)
    (σ : Heap) (model : Option Model) (inputs : Ptr) :
    Option (Params × List (EngineCall Model Tmpl)) :=
  match model with
  | some m =>
    if inputs ≠ 0 then
      match E.common_chat_templates_init m [] [] [] with
      | some t =>
        match σ inputs with
        | some req =>
          some (E.common_chat_templates_apply t req,
            [EngineCall.templates_init m [] [] [], EngineCall.templates_apply t req,
             EngineCall.templates_free t])
        | none => none
      | none => some (E.value_initialised_params, [EngineCall.templates_init m [] [] []])
    else some (E.value_initialised_params, [])
  | none => some (E.value_initialised_params, [])

/-- `free_chat_templates_inputs(inputs)`: `delete inputs`. Deleting the null
pointer does nothing; deleting an address that holds no live request is
undefined. -/
def free_chat_templates_inputs (σ : Heap) (inputs : Ptr) : Option Heap :=
  if inputs = 0 then some σ
  else
    match σ inputs with
    | some _ => some (Function.update σ inputs none)
    | none => none

/-- A run of `add_message_to_inputs` calls on one request, in list order. -/
def add_messages_to_inputs (σ : Heap) (inputs : Ptr) : List (c_str × c_str) → Option Heap
  | [] => some σ
  | (role, content) :: rest =>
    match add_message_to_inputs σ inputs role content with
    | some σ1 => add_messages_to_inputs σ1 inputs rest
    | none => none

/-- A call of one of the bridge operations that take a request and do not
destroy it. -/
inductive BridgeCall (Model Tmpl : Type) where
  | add_message (inputs : Ptr) (role content : c_str)
  | apply_safe (tmpls : Option Tmpl) (inputs : Ptr)
  | apply_with_model (model : Option Model) (inputs : Ptr)

/-- The heap after a bridge call (`none` when the call has undefined
behaviour). -/
def BridgeCall.run {Model Tmpl Params : Type} (E : Engine Model Tmpl Params) (σ : Heap) :
    BridgeCall Model Tmpl → Option Heap
  | BridgeCall.add_message inputs role content => add_message_to_inputs σ inputs role content
  | BridgeCall.apply_safe tmpls inputs =>
    (apply_chat_templates_safe E σ tmpls inputs).map (fun _ => σ)
  | BridgeCall.apply_with_model model inputs =>
    (apply_chat_templates_with_model E σ model inputs).map (fun _ => σ)

/-- A `const char*` argument is usable: null, or pointing at a terminated
buffer. -/
def c_str_ok : c_str → Prop
  | none => True
  | some buf => NUL ∈ buf

instance : (s : c_str) → Decidable (c_str_ok s)
  | none => isTrue trivial
  | some buf => inferInstanceAs (Decidable (NUL ∈ buf))

/-- The arguments of a bridge call are valid: every non-null request pointer
that the call dereferences is live, and the strings it copies are terminated. -/
def BridgeCall.valid {Model Tmpl : Type} (σ : Heap) : BridgeCall Model Tmpl → Prop
  | BridgeCall.add_message inputs role content =>
    (inputs ≠ 0 ∧ role.isSome ∧ content.isSome) →
      (c_str_ok role ∧ c_str_ok content ∧ (σ inputs).isSome)
  | BridgeCall.apply_safe tmpls inputs =>
    (tmpls.isSome ∧ inputs ≠ 0) → (σ inputs).isSome
  | BridgeCall.apply_with_model model inputs =>
    (model.isSome ∧ inputs ≠ 0) → (σ inputs).isSome

/-! ## The pointer adapters (`utils.cpp`, lines 3 to 10) -/

/-- An exclusively-owning pointer `std::unique_ptr<T, Deleter>`: the address it
holds, `0` when it is empty. -/
structure unique_ptr where
  get : Ptr
deriving DecidableEq

/-- Which addresses hold a live engine resource. -/
abbrev Live := Ptr → Bool

/-- Move construction of a `unique_ptr`: the new owner holds the address and
the source is left empty. Returns the new owner and the source afterwards. -/
def unique_ptr.move_from (src : unique_ptr) : unique_ptr × unique_ptr :=
  ({ get := src.get }, { get := 0 })

/-- The destructor of a `unique_ptr`: a non-empty owner runs its deleter on the
address it holds, which ends the life of the resource. -/
def unique_ptr.destroy (live : Live) (u : unique_ptr) : Live :=
  if u.get ≠ 0 then Function.update live u.get false else live

/-- `get_raw_pointer_from_unique_ptr(ptr)`: the owner is taken by reference to
const, so neither the owner nor the resource changes; returns the address
held. -/
def get_raw_pointer_from_unique_ptr (live : Live) (ptr : unique_ptr) : Ptr × unique_ptr × Live :=
  (ptr.get, ptr, live)

/-- `get_common_chat_templates(tmpls)`: the parameter `tmpls` is a
`common_chat_templates_ptr` taken by value. That type is declared in
`common/chat.h`, not part of the sources; it is the exclusively-owning pointer
of the spec, the `unique_ptr` that `common_chat_templates_init` returns and
`utils.cpp` tests and reads with `.get()` at lines 38 to 40. A `unique_ptr`
cannot be copied, so the parameter is move-constructed from the caller's owner
`arg`; the body returns `tmpls.get()`; the parameter is destroyed no later than
the end of the full-expression that contains the call. Returns the raw pointer,
the caller's owner after the call and the live resources once the call has
completed. -/
def get_common_chat_templates (live : Live) (arg : unique_ptr) : Ptr × unique_ptr × Live :=
  let (tmpls, arg_after) := unique_ptr.move_from arg
  let result := tmpls.get
  (result, arg_after, unique_ptr.destroy live tmpls)

/-! ## A concrete engine, used to instantiate the theorems -/

/-- A small engine: models and template sets are numbers, a template set can be
built from every model but model `0`, and rendering lists the roles of the
request's messages after the number of the template set. -/
def sampleEngine : Engine Nat Nat (Nat × List std_string) where
  common_chat_templates_init := fun m _ _ _ => if m = 0 then none else some (m + 100)
  common_chat_templates_apply := fun t req => (t, req.messages.map (fun msg => msg.role))
  value_initialised_params := (0, [])

/-- A terminated buffer holding `s`. -/
def terminated (s : String) : List Char := s.toList ++ [NUL]

/-! ## Auxiliary lemmas -/

theorem std_string_ctor_terminated (buf : List Char) (h : NUL ∈ buf) :
    std_string_ctor buf = some (c_str_value buf) := by
  simp [std_string_ctor, h]

theorem c_str_value_append (s t : List Char) (h : NUL ∉ s) :
    c_str_value (s ++ NUL :: t) = s := by
  induction s with
  | nil => simp [c_str_value]
  | cons x xs ih =>
    have hx : x ≠ NUL := fun e => h (by simp [e])
    have hxs : NUL ∉ xs := fun e => h (by simp [e])
    have := ih hxs
    simp [c_str_value] at this ⊢
    simp [hx, this]

theorem add_message_to_inputs_live (σ : Heap) (inputs : Ptr) (rbuf cbuf : List Char)
    (req : common_chat_templates_inputs) (hin : inputs ≠ 0) (hr : NUL ∈ rbuf) (hc : NUL ∈ cbuf)
    (hlive : σ inputs = some req) :
    add_message_to_inputs σ inputs (some rbuf) (some cbuf) =
      some (Function.update σ inputs (some { req with
        messages := req.messages ++ [{ role := c_str_value rbuf, content := c_str_value cbuf }] })) := by
  simp [add_message_to_inputs, hin, std_string_ctor_terminated, hr, hc, hlive]

theorem add_message_to_inputs_null (σ : Heap) (inputs : Ptr) (role content : c_str)
    (h : inputs = 0 ∨ role = none ∨ content = none) :
    add_message_to_inputs σ inputs role content = some σ := by
  unfold add_message_to_inputs
  rcases h with h | h | h
  · simp [h]
  · subst h; split <;> rfl
  · subst h; split
    · cases role <;> rfl
    · rfl

theorem add_messages_to_inputs_live (calls : List (List Char × List Char)) :
    ∀ (σ : Heap) (inputs : Ptr) (req : common_chat_templates_inputs), inputs ≠ 0 →
      (∀ c ∈ calls, NUL ∈ c.1 ∧ NUL ∈ c.2) → σ inputs = some req →
      ∃ σ', add_messages_to_inputs σ inputs (calls.map (fun c => (some c.1, some c.2))) = some σ' ∧
        σ' inputs = some { req with
          messages := req.messages ++ calls.map (fun c => ⟨c_str_value c.1, c_str_value c.2⟩) } ∧
        ∀ q, q ≠ inputs → σ' q = σ q := by
  induction calls with
  | nil => intro σ inputs req _ _ hlive; exact ⟨σ, rfl, by simp [hlive], fun _ _ => rfl⟩
  | cons c rest ih =>
    intro σ inputs req hin hterm hlive
    have hc := hterm c (by simp)
    have hstep := add_message_to_inputs_live σ inputs c.1 c.2 req hin hc.1 hc.2 hlive
    obtain ⟨σ', hrun, hat, hframe⟩ := ih _ inputs _ hin
      (fun x hx => hterm x (by simp [hx])) (Function.update_same inputs _ σ)
    refine ⟨σ', ?_, ?_, ?_⟩
    · simp only [List.map_cons, add_messages_to_inputs, hstep]
      exact hrun
    · simpa using hat
    · intro q hq
      rw [hframe q hq, Function.update_noteq hq]


theorem add_message_to_inputs_cases (σ σ' : Heap) (inputs : Ptr) (role content : c_str)
    (h : add_message_to_inputs σ inputs role content = some σ') :
    σ' = σ ∨ ∃ rbuf cbuf req, role = some rbuf ∧ content = some cbuf ∧ inputs ≠ 0 ∧
      σ inputs = some req ∧
      σ' = Function.update σ inputs (some { req with
        messages := req.messages ++ [⟨c_str_value rbuf, c_str_value cbuf⟩] }) := by
  by_cases hin : inputs = 0
  · rw [add_message_to_inputs_null σ inputs role content (Or.inl hin)] at h
    exact Or.inl (Option.some.inj h).symm
  · cases role with
    | none =>
      rw [add_message_to_inputs_null σ inputs none content (Or.inr (Or.inl rfl))] at h
      exact Or.inl (Option.some.inj h).symm
    | some rbuf =>
      cases content with
      | none =>
        rw [add_message_to_inputs_null σ inputs _ none (Or.inr (Or.inr rfl))] at h
        exact Or.inl (Option.some.inj h).symm
      | some cbuf =>
        right
        by_cases hr : NUL ∈ rbuf
        · by_cases hc : NUL ∈ cbuf
          · cases hlive : σ inputs with
            | none => simp [add_message_to_inputs, hin, std_string_ctor, hr, hc, hlive] at h
            | some req =>
              rw [add_message_to_inputs_live σ inputs rbuf cbuf req hin hr hc hlive] at h
              exact ⟨rbuf, cbuf, req, rfl, rfl, hin, rfl, (Option.some.inj h).symm⟩
          · simp [add_message_to_inputs, hin, std_string_ctor, hr, hc] at h
        · simp [add_message_to_inputs, hin, std_string_ctor, hr] at h

theorem BridgeCall.run_isSome_of_valid {Model Tmpl Params : Type} (E : Engine Model Tmpl Params)
    (σ : Heap) (c : BridgeCall Model Tmpl) (hv : c.valid σ) : (c.run E σ).isSome = true := by
  cases c with
  | add_message inputs role content =>
    simp only [BridgeCall.run]
    by_cases hin : inputs = 0
    · rw [add_message_to_inputs_null σ inputs role content (Or.inl hin)]; rfl
    · cases role with
      | none => rw [add_message_to_inputs_null σ inputs none content (Or.inr (Or.inl rfl))]; rfl
      | some rbuf =>
        cases content with
        | none => rw [add_message_to_inputs_null σ inputs _ none (Or.inr (Or.inr rfl))]; rfl
        | some cbuf =>
          obtain ⟨hr, hc, hl⟩ := hv ⟨hin, rfl, rfl⟩
          obtain ⟨req, hreq⟩ := Option.isSome_iff_exists.mp hl
          rw [add_message_to_inputs_live σ inputs rbuf cbuf req hin hr hc hreq]; rfl
  | apply_safe tmpls inputs =>
    simp only [BridgeCall.run, Option.isSome_map']
    cases tmpls with
    | none => rfl
    | some t =>
      by_cases hin : inputs = 0
      · simp [apply_chat_templates_safe, hin]
      · obtain ⟨req, hreq⟩ := Option.isSome_iff_exists.mp (hv ⟨rfl, hin⟩)
        simp [apply_chat_templates_safe, hin, hreq]
  | apply_with_model model inputs =>
    simp only [BridgeCall.run, Option.isSome_map']
    cases model with
    | none => rfl
    | some m =>
      by_cases hin : inputs = 0
      · simp [apply_chat_templates_with_model, hin]
      · obtain ⟨req, hreq⟩ := Option.isSome_iff_exists.mp (hv ⟨rfl, hin⟩)
        cases hinit : E.common_chat_templates_init m [] [] [] <;>
          simp [apply_chat_templates_with_model, hin, hreq, hinit]

theorem heap_of_map_const {α : Type} (σ σ' : Heap)
    (o : Option α) (h : o.map (fun _ => σ) = some σ') : σ' = σ := by
  cases o with
  | none => simp at h
  | some x => simpa using h.symm

/-! ## The claims -/

/-- Claim C1: for every N and every sequence of N pairs of non-null, terminated
strings, N calls of `add_message_to_inputs` in that order on the request
returned by `create_chat_templates_inputs` are all defined and leave the
request holding exactly N messages, the i-th having the role and the content
of the i-th pair. -/
theorem C1_add_messages_in_call_order (d : Bool × Bool) (σ : Heap) (p : Ptr)
    (hnew : operator_new_ok σ p) (calls : List (List Char × List Char))
    (hterm : ∀ c ∈ calls, NUL ∈ c.1 ∧ NUL ∈ c.2) :
    ∃ σ' req,
      add_messages_to_inputs (create_chat_templates_inputs d σ p).2
        (create_chat_templates_inputs d σ p).1
        (calls.map (fun c => (some c.1, some c.2))) = some σ' ∧
      σ' (create_chat_templates_inputs d σ p).1 = some req ∧
      req.messages.length = calls.length ∧
      ∀ (i : Nat) (c : List Char × List Char), calls[i]? = some c →
        ∃ msg : common_chat_msg, req.messages[i]? = some msg ∧
          msg.role = c_str_value c.1 ∧ msg.content = c_str_value c.2 := by
  obtain ⟨σ', hrun, hat, _⟩ := add_messages_to_inputs_live calls
    (create_chat_templates_inputs d σ p).2 p _ hnew.1 hterm (Function.update_same p _ σ)
  refine ⟨σ', _, hrun, hat, ?_, ?_⟩
  · simp [value_initialised_inputs]
  · intro i c hc
    refine ⟨⟨c_str_value c.1, c_str_value c.2⟩, ?_, rfl, rfl⟩
    simp [value_initialised_inputs, List.getElem?_map, hc]

/-- Instance of C1: the request created at address 1 on the empty heap, then
("user", "hello") and ("assistant", "hi"). -/
theorem C1_add_messages_in_call_order_witness :
    operator_new_ok Heap.empty 1 ∧
    ∃ σ' req,
      add_messages_to_inputs (create_chat_templates_inputs (false, false) Heap.empty 1).2
        (create_chat_templates_inputs (false, false) Heap.empty 1).1
        ([(terminated "user", terminated "hello"),
          (terminated "assistant", terminated "hi")].map (fun c => (some c.1, some c.2)))
        = some σ' ∧
      σ' (create_chat_templates_inputs (false, false) Heap.empty 1).1 = some req ∧
      req.messages.length =
        [(terminated "user", terminated "hello"), (terminated "assistant", terminated "hi")].length ∧
      ∀ (i : Nat) (c : List Char × List Char), [(terminated "user", terminated "hello"),
          (terminated "assistant", terminated "hi")][i]? = some c →
        ∃ msg : common_chat_msg, req.messages[i]? = some msg ∧
          msg.role = c_str_value c.1 ∧ msg.content = c_str_value c.2 :=
  ⟨by decide, C1_add_messages_in_call_order (false, false) Heap.empty 1 (by decide)
    [(terminated "user", terminated "hello"), (terminated "assistant", terminated "hi")]
    (by decide)⟩

/-- Claim C2: a call of `add_message_to_inputs` in which the request, the role
or the content is null is defined and leaves the whole heap as it was: the
messages and both flags of the request (when there is one) and every other
request. -/
theorem C2_add_message_null_is_noop (σ : Heap) (inputs : Ptr) (role content : c_str)
    (h : inputs = 0 ∨ role = none ∨ content = none) :
    add_message_to_inputs σ inputs role content = some σ :=
  add_message_to_inputs_null σ inputs role content h

/-- Instance of C2: a null content on a live request. -/
theorem C2_add_message_null_is_noop_witness :
    ((1 : Ptr) = 0 ∨ some (terminated "user") = none ∨ (none : c_str) = none) ∧
    add_message_to_inputs (create_chat_templates_inputs (false, false) Heap.empty 1).2 1
      (some (terminated "user")) none =
      some (create_chat_templates_inputs (false, false) Heap.empty 1).2 :=
  ⟨by decide, C2_add_message_null_is_noop _ 1 (some (terminated "user")) none (by decide)⟩

/-- Claim C3: `apply_chat_templates_safe` with a null template set (whatever
the request pointer) and with a null request (whatever the template set)
returns the value-initialised `common_chat_params`, and makes no call into the
engine. -/
theorem C3_apply_safe_null (Model Tmpl Params : Type) (E : Engine Model Tmpl Params)
    (σ : Heap) :
    (∀ inputs : Ptr,
      apply_chat_templates_safe E σ none inputs = some (E.value_initialised_params, [])) ∧
    (∀ tmpls : Option Tmpl,
      apply_chat_templates_safe E σ tmpls 0 = some (E.value_initialised_params, [])) := by
  refine ⟨fun _ => rfl, fun tmpls => ?_⟩
  cases tmpls <;> rfl

/-- Claim C4: `apply_chat_templates_with_model` returns the value-initialised
`common_chat_params` when the model is null, when the request is null, and
when both are non-null but template construction with three empty strings
yields a null template set; in the first two cases no call into the engine is
made, in the third only the construction call. -/
theorem C4_apply_with_model_default (Model Tmpl Params : Type) (E : Engine Model Tmpl Params)
    (σ : Heap) :
    (∀ inputs : Ptr,
      apply_chat_templates_with_model E σ none inputs =
        some (E.value_initialised_params, [])) ∧
    (∀ model : Option Model,
      apply_chat_templates_with_model E σ model 0 =
        some (E.value_initialised_params, [])) ∧
    (∀ (m : Model) (inputs : Ptr), inputs ≠ 0 →
      E.common_chat_templates_init m [] [] [] = none →
      apply_chat_templates_with_model E σ (some m) inputs =
        some (E.value_initialised_params, [EngineCall.templates_init m [] [] []])) := by
  refine ⟨fun _ => rfl, fun model => ?_, fun m inputs hin hinit => ?_⟩
  · cases model <;> rfl
  · simp [apply_chat_templates_with_model, hin, hinit]

/-- Instance of C4 on the sample engine, whose model `0` has no template set. -/
theorem C4_apply_with_model_default_witness :
    (1 : Ptr) ≠ 0 ∧ sampleEngine.common_chat_templates_init 0 [] [] [] = none ∧
    apply_chat_templates_with_model sampleEngine
      (create_chat_templates_inputs (false, false) Heap.empty 1).2 (some 0) 1 =
      some (sampleEngine.value_initialised_params, [EngineCall.templates_init 0 [] [] []]) :=
  ⟨by decide, by decide,
    (C4_apply_with_model_default Nat Nat (Nat × List std_string) sampleEngine
      (create_chat_templates_inputs (false, false) Heap.empty 1).2).2.2 0 1
      (by decide) (by decide)⟩


/-- Claim C5: for a non-null model and a non-null request, when template
construction from the model with three empty override strings yields the
template set `t`, `apply_chat_templates_with_model` returns the value that
`apply_chat_templates_safe` returns for `t` and the same request; for a live
request both are the engine's rendering of the request with `t`. -/
theorem C5_with_model_eq_safe_on_derived (Model Tmpl Params : Type)
    (E : Engine Model Tmpl Params) (σ : Heap) (m : Model) (inputs : Ptr) (t : Tmpl)
    (hin : inputs ≠ 0) (hinit : E.common_chat_templates_init m [] [] [] = some t) :
    (apply_chat_templates_with_model E σ (some m) inputs).map Prod.fst =
      (apply_chat_templates_safe E σ (some t) inputs).map Prod.fst ∧
    ∀ req, σ inputs = some req →
      (apply_chat_templates_with_model E σ (some m) inputs).map Prod.fst =
        some (E.common_chat_templates_apply t req) := by
  constructor
  · cases hlive : σ inputs <;>
      simp [apply_chat_templates_with_model, apply_chat_templates_safe, hin, hinit, hlive]
  · intro req hlive
    simp [apply_chat_templates_with_model, hin, hinit, hlive]

/-- Instance of C5 on the sample engine: model 3, whose template set is 103,
and the request at address 1. -/
theorem C5_with_model_eq_safe_on_derived_witness :
    (1 : Ptr) ≠ 0 ∧ sampleEngine.common_chat_templates_init 3 [] [] [] = some 103 ∧
    ((apply_chat_templates_with_model sampleEngine
        (create_chat_templates_inputs (false, false) Heap.empty 1).2 (some 3) 1).map Prod.fst =
      (apply_chat_templates_safe sampleEngine
        (create_chat_templates_inputs (false, false) Heap.empty 1).2 (some 103) 1).map Prod.fst ∧
    ∀ req, (create_chat_templates_inputs (false, false) Heap.empty 1).2 1 = some req →
      (apply_chat_templates_with_model sampleEngine
        (create_chat_templates_inputs (false, false) Heap.empty 1).2 (some 3) 1).map Prod.fst =
        some (sampleEngine.common_chat_templates_apply 103 req)) :=
  ⟨by decide, by decide,
    C5_with_model_eq_safe_on_derived Nat Nat (Nat × List std_string) sampleEngine
      (create_chat_templates_inputs (false, false) Heap.empty 1).2 3 1 103
      (by decide) (by decide)⟩

/-- Claim C6: for a non-null template set `t` and a non-null, live request,
`apply_chat_templates_safe` returns exactly the value of the engine's
`common_chat_templates_apply` on `t` and the contents of the request, whatever
the type of that value, and makes that one call into the engine. -/
theorem C6_apply_safe_verbatim (Model Tmpl Params : Type) (E : Engine Model Tmpl Params)
    (σ : Heap) (t : Tmpl) (inputs : Ptr) (req : common_chat_templates_inputs)
    (hin : inputs ≠ 0) (hlive : σ inputs = some req) :
    apply_chat_templates_safe E σ (some t) inputs =
      some (E.common_chat_templates_apply t req, [EngineCall.templates_apply t req]) := by
  simp [apply_chat_templates_safe, hin, hlive]

/-- Instance of C6 on the sample engine: template set 103 and the request at
address 1. -/
theorem C6_apply_safe_verbatim_witness :
    (1 : Ptr) ≠ 0 ∧
    (create_chat_templates_inputs (false, false) Heap.empty 1).2 1 =
      some { messages := [], add_generation_prompt := true, use_jinja := true } ∧
    apply_chat_templates_safe sampleEngine
      (create_chat_templates_inputs (false, false) Heap.empty 1).2 (some 103) 1 =
      some (sampleEngine.common_chat_templates_apply 103
          { messages := [], add_generation_prompt := true, use_jinja := true },
        [EngineCall.templates_apply 103
          { messages := [], add_generation_prompt := true, use_jinja := true }]) :=
  ⟨by decide, by decide,
    C6_apply_safe_verbatim Nat Nat (Nat × List std_string) sampleEngine
      (create_chat_templates_inputs (false, false) Heap.empty 1).2 103 1
      { messages := [], add_generation_prompt := true, use_jinja := true }
      (by decide) (by decide)⟩

/-- Claim C7: whatever the heap left by earlier calls and whatever the
engine's own defaults for the two flags, the pointer returned by
`create_chat_templates_inputs` is not null and the request stored there has
`add_generation_prompt = true` and `use_jinja = true`. -/
theorem C7_create_flags_true (d : Bool × Bool) (σ : Heap) (p : Ptr)
    (hnew : operator_new_ok σ p) :
    (create_chat_templates_inputs d σ p).1 ≠ 0 ∧
    ∃ req, (create_chat_templates_inputs d σ p).2 (create_chat_templates_inputs d σ p).1
        = some req ∧
      req.add_generation_prompt = true ∧ req.use_jinja = true := by
  refine ⟨hnew.1, _, Function.update_same p _ σ, rfl, rfl⟩

/-- Instance of C7: a second request, created at address 2 after a first one
at address 1, with engine defaults `false`. -/
theorem C7_create_flags_true_witness :
    operator_new_ok (create_chat_templates_inputs (false, false) Heap.empty 1).2 2 ∧
    (create_chat_templates_inputs (false, false)
      (create_chat_templates_inputs (false, false) Heap.empty 1).2 2).1 ≠ 0 ∧
    ∃ req, (create_chat_templates_inputs (false, false)
        (create_chat_templates_inputs (false, false) Heap.empty 1).2 2).2
        (create_chat_templates_inputs (false, false)
          (create_chat_templates_inputs (false, false) Heap.empty 1).2 2).1 = some req ∧
      req.add_generation_prompt = true ∧ req.use_jinja = true :=
  ⟨by decide, C7_create_flags_true (false, false)
    (create_chat_templates_inputs (false, false) Heap.empty 1).2 2 (by decide)⟩

/-- Claim C8: two consecutive calls of `create_chat_templates_inputs` return
distinct pointers `r1` and `r2`; appending a message (non-null, terminated role
and content) to `r1` is defined and leaves the request at `r2` as it was, and
appending to `r2` is defined and leaves the request at `r1` as it was. -/
theorem C8_requests_independent (d : Bool × Bool) (σ σ1 σ2 : Heap) (p1 p2 r1 r2 : Ptr)
    (h1 : operator_new_ok σ p1) (hc1 : create_chat_templates_inputs d σ p1 = (r1, σ1))
    (h2 : operator_new_ok σ1 p2) (hc2 : create_chat_templates_inputs d σ1 p2 = (r2, σ2))
    (rbuf cbuf : List Char) (hr : NUL ∈ rbuf) (hc : NUL ∈ cbuf) :
    r1 ≠ r2 ∧
    (∃ σ', add_message_to_inputs σ2 r1 (some rbuf) (some cbuf) = some σ' ∧ σ' r2 = σ2 r2) ∧
    (∃ σ', add_message_to_inputs σ2 r2 (some rbuf) (some cbuf) = some σ' ∧ σ' r1 = σ2 r1) := by
  have e1 : r1 = p1 := (congrArg Prod.fst hc1).symm
  have e2 : r2 = p2 := (congrArg Prod.fst hc2).symm
  have s1 : ∃ v, σ1 = Function.update σ p1 (some v) := ⟨_, (congrArg Prod.snd hc1).symm⟩
  have s2 : ∃ v, σ2 = Function.update σ1 p2 (some v) := ⟨_, (congrArg Prod.snd hc2).symm⟩
  obtain ⟨v1, rfl⟩ := s1
  obtain ⟨v2, rfl⟩ := s2
  subst e1 e2
  have hne : r1 ≠ r2 := by
    intro e
    have h := h2.2
    rw [← e, Function.update_same] at h
    exact Option.some_ne_none _ h
  have l1 : Function.update (Function.update σ r1 (some v1)) r2 (some v2) r1 = some v1 := by
    rw [Function.update_noteq hne, Function.update_same]
  have l2 : Function.update (Function.update σ r1 (some v1)) r2 (some v2) r2 = some v2 :=
    Function.update_same r2 _ _
  refine ⟨hne, ?_, ?_⟩
  · exact ⟨_, add_message_to_inputs_live _ r1 rbuf cbuf v1 h1.1 hr hc l1,
      Function.update_noteq (Ne.symm hne) _ _⟩
  · exact ⟨_, add_message_to_inputs_live _ r2 rbuf cbuf v2 h2.1 hr hc l2,
      Function.update_noteq hne _ _⟩

/-- Instance of C8: requests created at addresses 1 and 2 on the empty heap,
and the message ("user", "hello"). -/
theorem C8_requests_independent_witness :
    operator_new_ok Heap.empty 1 ∧
    operator_new_ok (create_chat_templates_inputs (true, true) Heap.empty 1).2 2 ∧
    NUL ∈ terminated "user" ∧ NUL ∈ terminated "hello" ∧
    (1 : Ptr) ≠ 2 ∧
    (∃ σ', add_message_to_inputs
        (create_chat_templates_inputs (true, true)
          (create_chat_templates_inputs (true, true) Heap.empty 1).2 2).2 1
        (some (terminated "user")) (some (terminated "hello")) = some σ' ∧
      σ' 2 = (create_chat_templates_inputs (true, true)
        (create_chat_templates_inputs (true, true) Heap.empty 1).2 2).2 2) ∧
    (∃ σ', add_message_to_inputs
        (create_chat_templates_inputs (true, true)
          (create_chat_templates_inputs (true, true) Heap.empty 1).2 2).2 2
        (some (terminated "user")) (some (terminated "hello")) = some σ' ∧
      σ' 1 = (create_chat_templates_inputs (true, true)
        (create_chat_templates_inputs (true, true) Heap.empty 1).2 2).2 1) :=
  ⟨by decide, by decide, by decide, by decide,
    C8_requests_independent (true, true) Heap.empty
      (create_chat_templates_inputs (true, true) Heap.empty 1).2
      (create_chat_templates_inputs (true, true)
        (create_chat_templates_inputs (true, true) Heap.empty 1).2 2).2
      1 2 1 2 (by decide) rfl (by decide) rfl
      (terminated "user") (terminated "hello") (by decide) (by decide)⟩

/-- Claim C9, evaluated at an owner `p` holding the live template set at
address 7. `get_common_chat_templates` returns 7, but its by-value parameter
has taken the resource over: after the call the caller's `p` is empty and the
resource at 7 is no longer live. The sibling
`get_raw_pointer_from_unique_ptr`, which takes the owner by reference, returns
7 and leaves both the owner and the resource as they were. -/
theorem C9_get_common_chat_templates_consumes_owner :
    (get_common_chat_templates (fun a => decide (a = 7)) { get := 7 }).1 = 7 ∧
    (get_common_chat_templates (fun a => decide (a = 7)) { get := 7 }).2.1 = { get := 0 } ∧
    (get_common_chat_templates (fun a => decide (a = 7)) { get := 7 }).2.2 7 = false ∧
    (get_raw_pointer_from_unique_ptr (fun a => decide (a = 7)) { get := 7 }).1 = 7 ∧
    (get_raw_pointer_from_unique_ptr (fun a => decide (a = 7)) { get := 7 }).2.1 = { get := 7 } ∧
    (get_raw_pointer_from_unique_ptr (fun a => decide (a = 7)) { get := 7 }).2.2 7 = true := by
  decide

/-- Claim C10: for a live request and any call of `add_message_to_inputs`,
`apply_chat_templates_safe` or `apply_chat_templates_with_model`, with any
arguments: a call with valid arguments is defined, and after a defined call
the request is still live, its messages before the call are a leading segment
of its messages after the call, its two flags are as before, and its number
of messages is either as before or one more, the latter only when the call is
an `add_message_to_inputs` on this request with non-null role and content. -/
theorem C10_messages_append_only (Model Tmpl Params : Type) (E : Engine Model Tmpl Params)
    (σ : Heap) (a : Ptr) (req : common_chat_templates_inputs) (hlive : σ a = some req)
    (c : BridgeCall Model Tmpl) :
    (c.valid σ → (c.run E σ).isSome = true) ∧
    ∀ σ', c.run E σ = some σ' →
      ∃ req', σ' a = some req' ∧ req.messages <+: req'.messages ∧
        req'.add_generation_prompt = req.add_generation_prompt ∧
        req'.use_jinja = req.use_jinja ∧
        (req'.messages.length = req.messages.length ∨
          (req'.messages.length = req.messages.length + 1 ∧
            ∃ rbuf cbuf, c = BridgeCall.add_message a (some rbuf) (some cbuf))) := by
  refine ⟨BridgeCall.run_isSome_of_valid E σ c, fun σ' hrun => ?_⟩
  have same : σ' = σ → ∃ req', σ' a = some req' ∧ req.messages <+: req'.messages ∧
        req'.add_generation_prompt = req.add_generation_prompt ∧
        req'.use_jinja = req.use_jinja ∧
        (req'.messages.length = req.messages.length ∨
          (req'.messages.length = req.messages.length + 1 ∧
            ∃ rbuf cbuf, c = BridgeCall.add_message a (some rbuf) (some cbuf))) := by
    intro e
    subst e
    exact ⟨req, hlive, List.prefix_refl _, rfl, rfl, Or.inl rfl⟩
  cases c with
  | add_message inputs role content =>
    rcases add_message_to_inputs_cases σ σ' inputs role content hrun with
      e | ⟨rbuf, cbuf, old, hrole, hcontent, _, hold, e⟩
    · exact same e
    · by_cases ha : a = inputs
      · subst ha
        rw [hlive] at hold
        cases Option.some.inj hold
        subst e hrole hcontent
        exact ⟨_, Function.update_same a _ σ, List.prefix_append _ _, rfl, rfl,
          Or.inr ⟨by simp, rbuf, cbuf, rfl⟩⟩
      · subst e
        refine ⟨req, ?_, List.prefix_refl _, rfl, rfl, Or.inl rfl⟩
        rw [Function.update_noteq ha]
        exact hlive
  | apply_safe tmpls inputs => exact same (heap_of_map_const σ σ' _ hrun)
  | apply_with_model model inputs => exact same (heap_of_map_const σ σ' _ hrun)

/-- Instance of C10: a valid `add_message_to_inputs` on the request at
address 1. -/
theorem C10_messages_append_only_witness :
    (create_chat_templates_inputs (true, true) Heap.empty 1).2 1 =
      some { messages := [], add_generation_prompt := true, use_jinja := true } ∧
    ((BridgeCall.add_message 1 (some (terminated "user")) (some (terminated "hello")) :
        BridgeCall Nat Nat).run sampleEngine
      (create_chat_templates_inputs (true, true) Heap.empty 1).2).isSome = true ∧
    ∀ σ', (BridgeCall.add_message 1 (some (terminated "user")) (some (terminated "hello")) :
        BridgeCall Nat Nat).run sampleEngine
        (create_chat_templates_inputs (true, true) Heap.empty 1).2 = some σ' →
      ∃ req', σ' 1 = some req' ∧ [] <+: req'.messages ∧
        req'.add_generation_prompt = true ∧ req'.use_jinja = true ∧
        (req'.messages.length = 0 ∨
          (req'.messages.length = 0 + 1 ∧
            ∃ rbuf cbuf, (BridgeCall.add_message 1 (some (terminated "user"))
              (some (terminated "hello")) : BridgeCall Nat Nat) =
              BridgeCall.add_message 1 (some rbuf) (some cbuf))) :=
  ⟨by decide,
    (C10_messages_append_only Nat Nat (Nat × List std_string) sampleEngine
      (create_chat_templates_inputs (true, true) Heap.empty 1).2 1
      { messages := [], add_generation_prompt := true, use_jinja := true } (by decide)
      (BridgeCall.add_message 1 (some (terminated "user")) (some (terminated "hello")))).1
      (fun _ => ⟨by decide, by decide, by decide⟩),
    (C10_messages_append_only Nat Nat (Nat × List std_string) sampleEngine
      (create_chat_templates_inputs (true, true) Heap.empty 1).2 1
      { messages := [], add_generation_prompt := true, use_jinja := true } (by decide)
      (BridgeCall.add_message 1 (some (terminated "user")) (some (terminated "hello")))).2⟩

end LocalLLMClientLlamaC
